import Mathlib

/-
Verification of the OnSecurity MCP server's request-building, HTTP-client,
extraction and formatting pipeline.

Shallow embedding notes:
* JavaScript primitive values appearing in filter maps are modelled by `JsPrim`
  (string / number / boolean); JS numbers are modelled as rationals.
* JS truthiness is modelled field-by-field: a string is truthy iff nonempty,
  a number is truthy iff nonzero, `undefined`/`null` are falsy (`Option.none`).
* `URLSearchParams` is modelled as the ordered list of appended
  (name, value) pairs; percent-encoding of the final query string is not
  modelled (claims are about parameter names and values).
* `console.warn` / `console.error` output is modelled by returning a list of
  warning / error strings alongside the result (quote characters of the
  original messages are dropped).
* The `fetch` + `await response.json()` effect is modelled by an explicit
  `FetchResult` oracle value describing the outcome of the network call.
* Field names and function names follow src/utils (src/unnamed/part_001,
  part_002) and src/index.ts.
-/

/-- A JavaScript primitive value that can occur in a filter map
(`string | number | boolean`); numbers are modelled as rationals. -/
inductive JsPrim : Type where
  | str (s : String)
  | num (q : ℚ)
  | bool (b : Bool)
deriving DecidableEq

/-- Rendering of a JS number by `toString()`. Integer-valued numbers render as
their decimal form, matching JavaScript; fractional values are rendered as
`num/den`, which deviates from JavaScript decimal notation but is never relied
on by any claim. -/
def jsNumToString (q : ℚ) : String :=
  if q.den = 1 then toString q.num else toString q.num ++ "/" ++ toString q.den

/-- Serialization of a filter value as performed by `fetchPage`:
`typeof value === 'boolean' ? (value ? '1' : '0') : value.toString()`. -/
def JsPrim.toQueryValue : JsPrim → String
  | JsPrim.str s => s
  | JsPrim.num q => jsNumToString q
  | JsPrim.bool b => if b then "1" else "0"

/-- The default `toString()` form of a non-boolean value. -/
def JsPrim.defaultToString : JsPrim → String
  | JsPrim.str s => s
  | JsPrim.num q => jsNumToString q
  | JsPrim.bool b => if b then "true" else "false"

/-- JS truthiness of an optional string (`undefined` and `""` are falsy). -/
def jsStrTruthy : Option String → Bool
  | some s => if s = "" then false else true
  | none => false

/-- JS `a || d` for an optional number (`undefined` and `0` are falsy). -/
def jsNumOr (o : Option ℚ) (d : ℚ) : ℚ :=
  match o with
  | some q => if q ≠ 0 then q else d
  | none => d

/-- JS `a || d` where `a` is an optional string and `d` a default string. -/
def jsOrStr (o : Option String) (d : String) : String :=
  match o with
  | some s => if s ≠ "" then s else d
  | none => d

/-- JS `a || d` where `a` is an optional number rendered by `toString()` and
`d` a default string. -/
def jsNumOrStr (o : Option ℚ) (d : String) : String :=
  match o with
  | some q => if q ≠ 0 then jsNumToString q else d
  | none => d

/-- JS `a || d` where `a` is an optional integer rendered by `toString()` and
`d` a default string. -/
def jsIntOrStr (o : Option Int) (d : String) : String :=
  match o with
  | some n => if n ≠ 0 then toString n else d
  | none => d

/-- JS `a || d` for an optional integer with integer default. -/
def jsIntOr (o : Option Int) (d : Int) : Int :=
  match o with
  | some n => if n ≠ 0 then n else d
  | none => d

/-- Template-literal interpolation of a possibly-undefined integer:
`${x}` renders `undefined` as the string "undefined". -/
def interpOptInt : Option Int → String
  | some n => toString n
  | none => "undefined"

/-- Template-literal interpolation of a possibly-undefined string. -/
def interpOptStr : Option String → String
  | some s => s
  | none => "undefined"

/-- Template-literal interpolation of a possibly-undefined boolean. -/
def interpOptBool : Option Bool → String
  | some b => if b then "true" else "false"
  | none => "undefined"

-- ==================== HTTP CLIENT (makeOnSecurityRequest) ====================

/-- Outcome of the `fetch` call made by `makeOnSecurityRequest`: either the
request itself failed (network error), or a response arrived with an HTTP
status code and a body whose JSON parse either succeeded with a value of type
`T` or failed with a parse-error message. -/
inductive FetchResult (T : Type) : Type where
  | networkError (msg : String)
  | response (status : Nat) (body : Except String T)

/-- `response.ok` of the Fetch API: status in the inclusive range 200-299. -/
def statusOk (status : Nat) : Bool :=
  decide (200 ≤ status) && decide (status ≤ 299)

/-- Embedding of `makeOnSecurityRequest` (src/index.ts, src/unnamed/part_001):
throws on `!response.ok`, parses JSON otherwise; every thrown error (HTTP
error, parse error, network error) is caught, logged via `console.error`, and
turned into a `null` result. Returns the result together with the list of
logged error messages. -/
def makeOnSecurityRequest {T : Type} : FetchResult T → Option T × List String
  | FetchResult.networkError msg =>
      (none, ["Error making OnSecurity request: " ++ msg])
  | FetchResult.response status body =>
      if statusOk status then
        match body with
        | Except.ok value => (some value, [])
        | Except.error msg => (none, ["Error making OnSecurity request: " ++ msg])
      else
        (none, ["Error making OnSecurity request: HTTP error! status: " ++ toString status])

/-- The failure condition described by the spec: network error, non-2xx
status, or JSON parse failure. -/
def requestFails {T : Type} : FetchResult T → Bool
  | FetchResult.networkError _ => true
  | FetchResult.response status body =>
      !statusOk status ||
        (match body with
         | Except.ok _ => false
         | Except.error _ => true)

-- ==================== REQUEST BUILDER (fetchPage) ====================

/-- The fixed allow-list of sort tokens for the `rounds` resource
(`validRoundsSortFields` in src/unnamed/part_001). -/
def validRoundsSortFields : List String :=
  ["name-asc", "start_date-asc", "end_date-asc", "authorisation_date-asc",
   "hours_estimate-asc", "created_at-asc", "updated_at-asc",
   "name-desc", "start_date-desc", "end_date-desc", "authorisation_date-desc",
   "hours_estimate-desc", "created_at-desc", "updated_at-desc"]

/-- The query-parameter name `filter[key]` used for a filter entry. -/
def filterKey (k : String) : String := "filter[" ++ k ++ "]"

/-- The warning logged when an invalid sort value is supplied for rounds. -/
def roundsSortWarning (s : String) : String :=
  "Warning: " ++ s ++ " is not a valid sort field for rounds. Available sort fields: "
    ++ String.intercalate ", " validRoundsSortFields

/-- The warning logged when an `end_date` filter is supplied for rounds. -/
def roundsEndDateFilterWarning : String :=
  "Warning: end_date is not a valid filter field for rounds (but it can be sorted). "
    ++ "Available date filter fields: start_date, join_chat_ends, join_chat_starts, "
    ++ "updated_at, created_at, retesting_end_date"

/-- `queryParams.append('page', page.toString())`. -/
def pageParams (page : Int) : List (String × String) :=
  [("page", toString page)]

/-- `if (limit) queryParams.append('limit', limit.toString())`. -/
def limitParams (limit : Option Int) : List (String × String) :=
  match limit with
  | some l => if l ≠ 0 then [("limit", toString l)] else []
  | none => []

/-- The sort parameters appended by `fetchPage`: for the rounds resource an
invalid sort value falls back to `id-asc`; otherwise the value is appended
verbatim. A falsy (absent or empty) sort appends nothing. -/
def sortParams (basePath : String) (sort : Option String) : List (String × String) :=
  match sort with
  | some s =>
      if s ≠ "" then
        if basePath = "rounds" ∧ s ∉ validRoundsSortFields then
          [("sort", "id-asc")]
        else
          [("sort", s)]
      else []
  | none => []

/-- The warnings logged by the sort-validation branch of `fetchPage`. -/
def sortWarnings (basePath : String) (sort : Option String) : List String :=
  match sort with
  | some s =>
      if s ≠ "" then
        if basePath = "rounds" ∧ s ∉ validRoundsSortFields then
          [roundsSortWarning s]
        else []
      else []
  | none => []

/-- `if (x) queryParams.append(key, x)` for the optional string parameters
`include`, `fields`, `search`. -/
def optStringParam (key : String) (o : Option String) : List (String × String) :=
  match o with
  | some s => if s ≠ "" then [(key, s)] else []
  | none => []

/-- The filter parameters appended by `fetchPage`: each entry becomes
`filter[key]=serialized value`, except that for the rounds resource an
`end_date` filter entry is dropped. -/
def filterParams (basePath : String) (filters : List (String × JsPrim)) :
    List (String × String) :=
  filters.filterMap fun kv =>
    if basePath = "rounds" ∧ kv.1 = "end_date" then none
    else some (filterKey kv.1, kv.2.toQueryValue)

/-- The warnings logged by the filter loop of `fetchPage`. -/
def filterWarnings (basePath : String) (filters : List (String × JsPrim)) :
    List String :=
  filters.filterMap fun kv =>
    if basePath = "rounds" ∧ kv.1 = "end_date" then some roundsEndDateFilterWarning
    else none

/-- The query parameters built by one `fetchPage` call, together with the
warnings it logs. -/
structure BuiltQuery : Type where
  params : List (String × String)
  warnings : List String
deriving DecidableEq

/-- Embedding of the query-construction part of `fetchPage`
(src/unnamed/part_001): appends `page`, then `limit`, `sort` (with rounds
validation), `include`, `fields`, `search` when truthy, then the filter
entries (booleans coerced to "1"/"0", `end_date` dropped for rounds). -/
def fetchPageParams (basePath : String) (page : Int)
    (filters : List (String × JsPrim)) (sort includes fields : Option String)
    (limit : Option Int) (search : Option String) : BuiltQuery :=
  { params :=
      pageParams page ++ limitParams limit ++ sortParams basePath sort
        ++ optStringParam "include" includes ++ optStringParam "fields" fields
        ++ optStringParam "search" search ++ filterParams basePath filters,
    warnings := sortWarnings basePath sort ++ filterWarnings basePath filters }

-- ==================== TOOL HANDLERS (get-rounds / get-findings) ====================

/-- JS object property assignment `obj[k] = v` on an object modelled as an
insertion-ordered association list: replaces the value in place when the key
exists, appends otherwise. -/
def setKey : List (String × JsPrim) → String → JsPrim → List (String × JsPrim)
  | [], k, v => [(k, v)]
  | (k', v') :: rest, k, v =>
      if k' = k then (k', v) :: rest else (k', v') :: setKey rest k v

/-- The per-entry coercion applied by the tool handlers before `fetchPage`:
`typeof value === 'boolean' ? (value ? 1 : 0) : value`. -/
def coerceToolFilterValue : JsPrim → JsPrim
  | JsPrim.bool b => JsPrim.num (if b then 1 else 0)
  | v => v

/-- The `filters` object each tool handler builds from `params.filters` by
assigning every entry in order, with booleans coerced to 1/0. -/
def buildToolFilters (fs : List (String × JsPrim)) : List (String × JsPrim) :=
  fs.foldl (fun acc kv => setKey acc kv.1 (coerceToolFilterValue kv.2)) []

/-- Parameters of the `get-rounds` tool (src/index.ts). -/
structure GetRoundsParams : Type where
  round_type : Option Int
  sort : Option String
  limit : Option Int
  page : Option Int
  includes : Option String
  fields : Option String
  filters : List (String × JsPrim)
  search : Option String

/-- Parameters of the `get-findings` tool (src/index.ts). -/
structure GetFindingsParams : Type where
  round_id : Option Int
  round_type : Option Int
  sort : Option String
  limit : Option Int
  page : Option Int
  includes : Option String
  fields : Option String
  filters : List (String × JsPrim)
  search : Option String

/-- The filter map the `get-rounds` handler passes to `fetchPage`: the coerced
`params.filters` entries, then `if (params.round_type)
filters['round_type_id-eq'] = params.round_type`. -/
def getRoundsFilters (p : GetRoundsParams) : List (String × JsPrim) :=
  let filters := buildToolFilters p.filters
  match p.round_type with
  | some rt => if rt ≠ 0 then setKey filters "round_type_id-eq" (JsPrim.num rt) else filters
  | none => filters

/-- The filter map the `get-findings` handler passes to `fetchPage`:
the coerced `params.filters` entries, then `round_id-eq` if `params.round_id`
is truthy, then `round_type_id-eq` if `params.round_type` is truthy. -/
def getFindingsFilters (p : GetFindingsParams) : List (String × JsPrim) :=
  let filters := buildToolFilters p.filters
  let filters :=
    match p.round_id with
    | some rid => if rid ≠ 0 then setKey filters "round_id-eq" (JsPrim.num rid) else filters
    | none => filters
  match p.round_type with
  | some rt => if rt ≠ 0 then setKey filters "round_type_id-eq" (JsPrim.num rt) else filters
  | none => filters

/-- The query built by the `get-rounds` handler:
`fetchPage('rounds', params.page || 1, filters, params.sort, params.includes,
params.fields, params.limit, params.search)`. -/
def getRoundsQuery (p : GetRoundsParams) : BuiltQuery :=
  fetchPageParams "rounds" (jsIntOr p.page 1) (getRoundsFilters p)
    p.sort p.includes p.fields p.limit p.search

/-- The query built by the `get-findings` handler. -/
def getFindingsQuery (p : GetFindingsParams) : BuiltQuery :=
  fetchPageParams "findings" (jsIntOr p.page 1) (getFindingsFilters p)
    p.sort p.includes p.fields p.limit p.search

-- ==================== SORTING (JS Array.prototype.sort on strings) ====================

/-- Lexicographic comparison of character lists by character code, the order
used by the default JavaScript `Array.prototype.sort()` on strings. -/
def charListLe : List Char → List Char → Bool
  | [], _ => true
  | _ :: _, [] => false
  | a :: as, b :: bs =>
      if a.toNat < b.toNat then true
      else if b.toNat < a.toNat then false
      else charListLe as bs

/-- Lexicographic string comparison by character code. -/
def jsStrLe (a b : String) : Bool := charListLe a.data b.data

/-- Insert an element into a list sorted by `le`, keeping it sorted. -/
def insertLe {α : Type} (le : α → α → Bool) (a : α) : List α → List α
  | [] => [a]
  | b :: bs => if le a b then a :: b :: bs else b :: insertLe le a bs

/-- Insertion sort by a boolean comparison, modelling `Array.sort`. -/
def sortBy {α : Type} (le : α → α → Bool) : List α → List α
  | [] => []
  | a :: as => insertLe le a (sortBy le as)

/-- JS `Set.prototype.add`: appends the element unless already present
(keeps first occurrences, insertion-ordered). -/
def jsSetAdd (l : List String) (s : String) : List String :=
  if s ∈ l then l else l ++ [s]

-- ==================== DATA MODEL (entity shapes, src/index.ts) ====================

/-- The `target_type.result` payload: only the fields read by the extractors
and formatters are modelled. -/
structure TargetType : Type where
  name : String
  assessment_name : String
deriving DecidableEq

/-- The `target_type` include wrapper on a Target; `result` is optional to
model the defensive `target.target_type?.result?` access. -/
structure IncludedTargetType : Type where
  result : Option TargetType
deriving DecidableEq

/-- A Target (scope item of a Round). `value` and `notes` are
`string | null`. -/
structure Target : Type where
  hidden : Bool
  value : Option String
  notes : Option String
  target_type : Option IncludedTargetType
deriving DecidableEq

/-- The `targets` include wrapper on a Round. -/
structure IncludedTargets : Type where
  result : List Target
deriving DecidableEq

/-- The `estimate` field of a Round (required by the RoundFeature type). -/
structure RoundEstimate : Type where
  time : ℚ
  period : String
deriving DecidableEq

/-- RoundFeature (src/index.ts): the fields read by `formatRound` and the
extractors. -/
structure RoundFeature : Type where
  id : Int
  client_id : Int
  round_type_id : Int
  pod_id : Option Int
  estimate : RoundEstimate
  start_date : Option String
  end_date : Option String
  started : Bool
  finished : Bool
  name : String
  executive_summary_published : Bool
  targets : Option IncludedTargets
deriving DecidableEq

/-- The nested target list of a round; empty when the optional `targets`
include is absent (`if (!round.targets?.result) return []`). -/
def roundTargets (round : RoundFeature) : List Target :=
  match round.targets with
  | some ts => ts.result
  | none => []

/-- The truthy `target.target_type?.result?.assessment_name` chain: `some`
exactly when every link is present and the name is a nonempty string. -/
def targetAssessmentName (t : Target) : Option String :=
  match t.target_type with
  | some tt =>
      match tt.result with
      | some ty => if ty.assessment_name ≠ "" then some ty.assessment_name else none
      | none => none
  | none => none

/-- Embedding of `extractAssessmentTypes` (src/index.ts, src/unnamed/part_002):
collects `assessment_name` of every hidden target into a `Set`, then returns
`Array.from(set).sort()`. -/
def extractAssessmentTypes (round : RoundFeature) : List String :=
  let hiddenNames := ((roundTargets round).filter fun t => t.hidden).filterMap targetAssessmentName
  sortBy jsStrLe (hiddenNames.foldl jsSetAdd [])

/-- The projection produced by `extractActualTargets`. -/
structure ActualTarget : Type where
  value : String
  type : String
  notes : Option String
deriving DecidableEq

/-- JS `x || undefined` on an optional string. -/
def jsOrUndef (o : Option String) : Option String :=
  match o with
  | some s => if s = "" then none else some s
  | none => none

/-- Embedding of `extractActualTargets` (src/index.ts): keeps non-hidden
targets with a truthy `value`, projecting value, type name (or "Unknown") and
notes. -/
def extractActualTargets (round : RoundFeature) : List ActualTarget :=
  ((roundTargets round).filter fun t => !t.hidden && jsStrTruthy t.value).map fun t =>
    { value := t.value.getD "",
      type := jsOrStr (t.target_type.bind fun tt => tt.result.map TargetType.name) "Unknown",
      notes := jsOrUndef t.notes }

-- ==================== extractTimeData (duck-typed round) ====================

/-- One entry of `round.time_logs.result` as read by `extractTimeData`
(duck-typed, so `hours` may be absent). -/
structure TimeLogEntry : Type where
  hours : Option ℚ
deriving DecidableEq

/-- The `time_logs` include wrapper. -/
structure IncludedTimeLogs : Type where
  result : List TimeLogEntry
deriving DecidableEq

/-- The `estimate` object as read by the duck-typed `extractTimeData`
(`round.estimate.time` may be absent). -/
structure LooseEstimate : Type where
  time : Option ℚ
deriving DecidableEq

/-- The duck-typed (`round: any`) argument of `extractTimeData`: only
`estimate` and `time_logs` are read, and both may be absent. -/
structure LooseRound : Type where
  estimate : Option LooseEstimate
  time_logs : Option IncludedTimeLogs
deriving DecidableEq

/-- The record returned by `extractTimeData`. -/
structure TimeData : Type where
  estimated : ℚ
  logged : ℚ
  remaining : ℚ
deriving DecidableEq

/-- Embedding of `extractTimeData` (src/index.ts, src/unnamed/part_002):
`estimated` is `round.estimate.time || 0` when `round.estimate` is present
(0 otherwise), `logged` is the reduce-sum of `log.hours || 0`, and
`remaining = Math.max(0, estimated - logged)`. -/
def extractTimeData (round : LooseRound) : TimeData :=
  let estimated :=
    match round.estimate with
    | some e => jsNumOr e.time 0
    | none => 0
  let logged :=
    match round.time_logs with
    | some tl => tl.result.foldl (fun sum log => sum + jsNumOr log.hours 0) 0
    | none => 0
  { estimated := estimated, logged := logged, remaining := max 0 (estimated - logged) }

-- ==================== FORMATTERS (src/index.ts) ====================

/-- FindingFeature (src/index.ts): every field is optional in the declared
interface. -/
structure FindingCvss : Type where
  score : Option ℚ
  severity_label : Option String
deriving DecidableEq

/-- The `status` object of a Finding. -/
structure FindingStatus : Type where
  label : Option String
  description : Option String
deriving DecidableEq

/-- FindingFeature (src/index.ts, all fields optional). -/
structure FindingFeature : Type where
  id : Option Int
  client_id : Option Int
  round_id : Option Int
  name : Option String
  display_id : Option String
  remediation_complexity : Option ℚ
  executive_description : Option String
  executive_risk : Option String
  executive_recommendation : Option String
  description : Option String
  evidence : Option String
  recommendation : Option String
  cvss : Option FindingCvss
  status : Option FindingStatus
  published : Option Bool
deriving DecidableEq

/-- NotificationFeature (src/index.ts, all fields optional). -/
structure NotificationFeature : Type where
  heading : Option String
  created_at : Option String
  updated_at : Option String
deriving DecidableEq

/-- PrerequisiteFeature (src/index.ts). -/
structure PrerequisiteFeature : Type where
  id : Int
  round_id : Int
  name : Option String
  description : Option String
  required : Option Bool
  status : Option String
  created_at : Option String
  updated_at : Option String
deriving DecidableEq

/-- The nested cvss score object used by `formatBlock`. -/
structure BlockCvss : Type where
  score : Option ℚ
deriving DecidableEq

/-- The `ratings` object of a Block. -/
structure BlockRatings : Type where
  cvss : Option BlockCvss
deriving DecidableEq

/-- BlockFeature (src/index.ts): the fields read by `formatBlock`. -/
structure BlockFeature : Type where
  id : Int
  round_type_id : Int
  name : String
  executive_description : Option String
  executive_risk : Option String
  executive_recommendation : Option String
  description : Option String
  evidence : Option String
  recommendation : Option String
  remediation_complexity : Option ℚ
  approved : Bool
  automation_approved : Bool
  used_count : Int
  ratings : Option BlockRatings
  cvss : Option BlockCvss
  created_at : String
  updated_at : String
deriving DecidableEq

/-- The record-separator line every formatter ends with. -/
def separatorLine : String := "--------------------------------"

/-- The base lines pushed unconditionally by `formatRound`. -/
def baseRoundLines (round : RoundFeature) : List String :=
  ["Round ID: " ++ toString round.id,
   "Client ID: " ++ toString round.client_id,
   "Round Type: " ++
     (if round.round_type_id = 1 then "pentest round"
      else if round.round_type_id = 3 then "scan round"
      else toString round.round_type_id),
   "Pod ID: " ++ jsIntOrStr round.pod_id "Not assigned",
   "Estimated: " ++ jsNumToString round.estimate.time ++ " " ++ round.estimate.period,
   "Start Date: " ++ jsOrStr round.start_date "Unknown",
   "End Date: " ++ jsOrStr round.end_date "Unknown",
   "Started: " ++ (if round.started then "true" else "false"),
   "Completed: " ++ (if round.finished then "true" else "false"),
   "Name: " ++ round.name,
   "Executive Summary Published: " ++
     (if round.executive_summary_published then "true" else "false")]

/-- The `Assessment Types:` line, pushed only when the list is nonempty. -/
def assessmentTypeLines (round : RoundFeature) : List String :=
  let assessmentTypes := extractAssessmentTypes round
  if assessmentTypes.length > 0 then
    ["Assessment Types: " ++ String.intercalate ", " assessmentTypes]
  else []

/-- The `Targets:` line: listed when between 1 and 5 targets, a count when
more than 5, nothing when none. -/
def targetSummaryLines (round : RoundFeature) : List String :=
  let actualTargets := extractActualTargets round
  if actualTargets.length > 0 ∧ actualTargets.length ≤ 5 then
    ["Targets: " ++ String.intercalate ", "
      (actualTargets.map fun t => t.value ++ " (" ++ t.type ++ ")")]
  else if actualTargets.length > 5 then
    ["Targets: " ++ toString actualTargets.length ++ " targets configured"]
  else []

/-- The lines built by `formatRound` (src/index.ts) before joining. -/
def formatRoundLines (round : RoundFeature) : List String :=
  baseRoundLines round ++ assessmentTypeLines round ++ targetSummaryLines round
    ++ [separatorLine]

/-- Embedding of `formatRound` (src/index.ts). -/
def formatRound (round : RoundFeature) : String :=
  String.intercalate "\n" (formatRoundLines round)

/-- The lines built by `formatFinding` (src/index.ts) before joining. -/
def formatFindingLines (finding : FindingFeature) : List String :=
  ["Finding ID: " ++ interpOptInt finding.id,
   "Display ID: " ++ interpOptStr finding.display_id,
   "Name: " ++ interpOptStr finding.name,
   "Client ID: " ++ interpOptInt finding.client_id,
   "Round ID: " ++ interpOptInt finding.round_id,
   "CVSS Score: " ++ jsNumOrStr (finding.cvss.bind FindingCvss.score) "N/A",
   "Severity: " ++ jsOrStr (finding.cvss.bind FindingCvss.severity_label) "N/A",
   "Status: " ++ jsOrStr (finding.status.bind FindingStatus.label) "Unknown"
     ++ " (" ++ jsOrStr (finding.status.bind FindingStatus.description) "No description" ++ ")",
   "Published: " ++ interpOptBool finding.published,
   "Remediation Complexity: " ++ jsNumOrStr finding.remediation_complexity "N/A",
   "Executive Description: " ++ jsOrStr finding.executive_description "N/A",
   "Executive Risk: " ++ jsOrStr finding.executive_risk "N/A",
   "Executive Recommendation: " ++ jsOrStr finding.executive_recommendation "N/A",
   "Description: " ++ jsOrStr finding.description "N/A",
   "Evidence: " ++ jsOrStr finding.evidence "N/A",
   "Recommendation: " ++ jsOrStr finding.recommendation "N/A",
   separatorLine]

/-- Embedding of `formatFinding` (src/index.ts). -/
def formatFinding (finding : FindingFeature) : String :=
  String.intercalate "\n" (formatFindingLines finding)

/-- The lines built by `formatNotification` (src/index.ts) before joining. -/
def formatNotificationLines (notification : NotificationFeature) : List String :=
  ["Content: " ++ interpOptStr notification.heading,
   "Created At: " ++ interpOptStr notification.created_at,
   "Updated At: " ++ interpOptStr notification.updated_at,
   separatorLine]

/-- Embedding of `formatNotification` (src/index.ts). -/
def formatNotification (notification : NotificationFeature) : String :=
  String.intercalate "\n" (formatNotificationLines notification)

/-- The lines built by `formatPrerequisite` (src/index.ts) before joining.
The `Required:` line uses a strict `!== undefined` check, not truthiness. -/
def formatPrerequisiteLines (prerequisite : PrerequisiteFeature) : List String :=
  ["Prerequisite ID: " ++ toString prerequisite.id,
   "Round ID: " ++ toString prerequisite.round_id,
   "Name: " ++ jsOrStr prerequisite.name "N/A",
   "Description: " ++ jsOrStr prerequisite.description "N/A",
   "Required: " ++
     (match prerequisite.required with
      | some b => if b then "true" else "false"
      | none => "N/A"),
   "Status: " ++ jsOrStr prerequisite.status "N/A",
   "Created At: " ++ jsOrStr prerequisite.created_at "N/A",
   "Updated At: " ++ jsOrStr prerequisite.updated_at "N/A",
   separatorLine]

/-- Embedding of `formatPrerequisite` (src/index.ts). -/
def formatPrerequisite (prerequisite : PrerequisiteFeature) : String :=
  String.intercalate "\n" (formatPrerequisiteLines prerequisite)

/-- JS truthiness of an optional number. -/
def jsNumTruthy : Option ℚ → Bool
  | some q => if q = 0 then false else true
  | none => false

/-- JS `a || b` on two optional numbers (used for the CVSS score chain
`block.ratings?.cvss?.score || block.cvss?.score`). -/
def jsNumOrElse (a b : Option ℚ) : Option ℚ :=
  if jsNumTruthy a then a else b

/-- `s.substring(0, n)`: the first `min n (length s)` characters. -/
def jsSubstring0 (s : String) (n : Nat) : String := String.mk (s.data.take n)

/-- A truncated free-text field of `formatBlock`:
`field ? field.substring(0, 200) + "..." : "N/A"`. -/
def truncatedField (o : Option String) : String :=
  match o with
  | some s => if s ≠ "" then jsSubstring0 s 200 ++ "..." else "N/A"
  | none => "N/A"

/-- The lines built by `formatBlock` (src/index.ts) before joining. -/
def formatBlockLines (block : BlockFeature) : List String :=
  ["Block ID: " ++ toString block.id,
   "Name: " ++ block.name,
   "Round Type ID: " ++ toString block.round_type_id,
   "Approved: " ++ (if block.approved then "true" else "false"),
   "Automation Approved: " ++ (if block.automation_approved then "true" else "false"),
   "Used Count: " ++ toString block.used_count,
   "Remediation Complexity: " ++ jsNumOrStr block.remediation_complexity "N/A",
   "CVSS Score: " ++ jsNumOrStr
     (jsNumOrElse ((block.ratings.bind BlockRatings.cvss).bind BlockCvss.score)
       (block.cvss.bind BlockCvss.score)) "N/A",
   "Executive Description: " ++ truncatedField block.executive_description,
   "Executive Risk: " ++ truncatedField block.executive_risk,
   "Executive Recommendation: " ++ truncatedField block.executive_recommendation,
   "Description: " ++ truncatedField block.description,
   "Evidence: " ++ truncatedField block.evidence,
   "Recommendation: " ++ truncatedField block.recommendation,
   "Created At: " ++ block.created_at,
   "Updated At: " ++ block.updated_at,
   separatorLine]

/-- Embedding of `formatBlock` (src/index.ts). -/
def formatBlock (block : BlockFeature) : String :=
  String.intercalate "\n" (formatBlockLines block)

-- ==================== HELPER LEMMAS ====================

theorem mem_pageParams {page : Int} {p : String × String} (h : p ∈ pageParams page) :
    p = ("page", toString page) := by
  simpa [pageParams] using h

theorem mem_limitParams {lim : Option Int} {p : String × String} (h : p ∈ limitParams lim) :
    ∃ l, lim = some l ∧ l ≠ 0 ∧ p = ("limit", toString l) := by
  cases lim with
  | none => simp [limitParams] at h
  | some l =>
      by_cases hl : l ≠ 0
      · simp [limitParams, hl] at h
        exact ⟨l, rfl, hl, by simp [h]⟩
      · simp [limitParams, hl] at h

theorem mem_sortParams {base : String} {sort : Option String} {p : String × String}
    (h : p ∈ sortParams base sort) : p.1 = "sort" := by
  cases sort with
  | none => simp [sortParams] at h
  | some s =>
      by_cases hs : s ≠ ""
      · by_cases hr : base = "rounds" ∧ s ∉ validRoundsSortFields
        · simp [sortParams, hs, hr] at h; simp [h]
        · simp [sortParams, hs, hr] at h; simp [h]
      · simp [sortParams, hs] at h

theorem mem_optStringParam {key : String} {o : Option String} {p : String × String}
    (h : p ∈ optStringParam key o) : ∃ s, o = some s ∧ s ≠ "" ∧ p = (key, s) := by
  cases o with
  | none => simp [optStringParam] at h
  | some s =>
      by_cases hs : s ≠ ""
      · simp [optStringParam, hs] at h
        exact ⟨s, rfl, hs, by simp [h]⟩
      · simp [optStringParam, hs] at h

theorem mem_filterParams {base : String} {fs : List (String × JsPrim)} {p : String × String} :
    p ∈ filterParams base fs ↔
      ∃ k v, (k, v) ∈ fs ∧ ¬(base = "rounds" ∧ k = "end_date")
        ∧ p = (filterKey k, JsPrim.toQueryValue v) := by
  constructor
  · intro h
    rcases List.mem_filterMap.mp h with ⟨kv, hmem, heq⟩
    by_cases hg : base = "rounds" ∧ kv.1 = "end_date"
    · simp [hg] at heq
    · simp [hg] at heq
      exact ⟨kv.1, kv.2, by simpa using hmem, hg, heq.symm⟩
  · rintro ⟨k, v, hmem, hg, rfl⟩
    exact List.mem_filterMap.mpr ⟨(k, v), hmem, by simp [hg]⟩

theorem filterKey_length (k : String) : (filterKey k).length = k.length + 8 := by
  have h7 : ("filter[" : String).length = 7 := rfl
  have h1 : ("]" : String).length = 1 := rfl
  simp [filterKey, String.length_append, h7, h1]
  omega

theorem filterKey_ne_of_short {k s : String} (h : s.length < 8) : filterKey k ≠ s := by
  intro heq
  have := filterKey_length k
  rw [heq] at this
  omega

theorem filterKey_inj {k k' : String} (h : filterKey k = filterKey k') : k = k' := by
  have hdata := congrArg String.data h
  simp only [filterKey, String.data_append, List.append_assoc] at hdata
  have h2 := List.append_cancel_left hdata
  exact String.ext (List.append_cancel_right h2)

theorem fetchPage_mem_cases {base : String} {page : Int} {fs : List (String × JsPrim)}
    {sort inc fld : Option String} {lim : Option Int} {srch : Option String}
    {p : String × String}
    (h : p ∈ (fetchPageParams base page fs sort inc fld lim srch).params) :
    p ∈ pageParams page ∨ p ∈ limitParams lim ∨ p ∈ sortParams base sort
      ∨ p ∈ optStringParam "include" inc ∨ p ∈ optStringParam "fields" fld
      ∨ p ∈ optStringParam "search" srch ∨ p ∈ filterParams base fs := by
  simp only [fetchPageParams, List.mem_append] at h
  tauto

theorem mem_insertLe {α : Type} (le : α → α → Bool) (a x : α) (l : List α) :
    x ∈ insertLe le a l ↔ x = a ∨ x ∈ l := by
  induction l with
  | nil => simp [insertLe]
  | cons b bs ih =>
      by_cases hab : le a b
      · simp [insertLe, hab]
      · simp [insertLe, hab, ih]
        tauto

theorem perm_insertLe {α : Type} (le : α → α → Bool) (a : α) (l : List α) :
    List.Perm (insertLe le a l) (a :: l) := by
  induction l with
  | nil => simp [insertLe]
  | cons b bs ih =>
      by_cases hab : le a b
      · simp [insertLe, hab]
      · simp only [insertLe, hab, if_neg]
        exact List.Perm.trans (List.Perm.cons b ih) (List.Perm.swap a b bs)

theorem perm_sortBy {α : Type} (le : α → α → Bool) (l : List α) :
    List.Perm (sortBy le l) l := by
  induction l with
  | nil => simp [sortBy]
  | cons a as ih =>
      exact List.Perm.trans (perm_insertLe le a (sortBy le as)) (List.Perm.cons a ih)

theorem pairwise_insertLe {α : Type} (le : α → α → Bool)
    (htot : ∀ a b, le a b = true ∨ le b a = true)
    (htrans : ∀ a b c, le a b = true → le b c = true → le a c = true)
    (a : α) (l : List α) (h : l.Pairwise fun x y => le x y = true) :
    (insertLe le a l).Pairwise fun x y => le x y = true := by
  induction l with
  | nil => simp [insertLe]
  | cons b bs ih =>
      rcases List.pairwise_cons.mp h with ⟨hb, hbs⟩
      by_cases hab : le a b
      · simp only [insertLe, hab, if_pos]
        refine List.pairwise_cons.mpr ⟨?_, h⟩
        intro x hx
        rcases List.mem_cons.mp hx with rfl | hx'
        · exact hab
        · exact htrans a b x hab (hb x hx')
      · simp only [insertLe, hab, if_neg]
        have hba : le b a = true := by
          rcases htot a b with h' | h'
          · exact absurd h' hab
          · exact h'
        refine List.pairwise_cons.mpr ⟨?_, ih hbs⟩
        intro x hx
        rcases (mem_insertLe le a x bs).mp hx with rfl | hx'
        · exact hba
        · exact hb x hx'

theorem pairwise_sortBy {α : Type} (le : α → α → Bool)
    (htot : ∀ a b, le a b = true ∨ le b a = true)
    (htrans : ∀ a b c, le a b = true → le b c = true → le a c = true)
    (l : List α) : (sortBy le l).Pairwise fun x y => le x y = true := by
  induction l with
  | nil => simp [sortBy]
  | cons a as ih => exact pairwise_insertLe le htot htrans a (sortBy le as) ih

theorem charListLe_total : ∀ as bs, charListLe as bs = true ∨ charListLe bs as = true
  | [], _ => Or.inl rfl
  | _ :: _, [] => Or.inr rfl
  | a :: as, b :: bs => by
      rcases Nat.lt_trichotomy a.toNat b.toNat with h | h | h
      · left; simp [charListLe, h]
      · have hba : ¬ b.toNat < a.toNat := by omega
        have hab : ¬ a.toNat < b.toNat := by omega
        rcases charListLe_total as bs with ih | ih
        · left; simp [charListLe, hab, hba, ih]
        · right; simp [charListLe, hab, hba, ih]
      · right; simp [charListLe, h]

theorem charListLe_trans : ∀ as bs cs, charListLe as bs = true → charListLe bs cs = true →
    charListLe as cs = true
  | [], _, _, _, _ => rfl
  | _ :: _, [], _, h, _ => by simp [charListLe] at h
  | _ :: _, _ :: _, [], _, h => by simp [charListLe] at h
  | a :: as, b :: bs, c :: cs, h1, h2 => by
      simp only [charListLe] at h1 h2 ⊢
      by_cases hab : a.toNat < b.toNat
      · by_cases hbc : b.toNat < c.toNat
        · simp [show a.toNat < c.toNat by omega]
        · by_cases hcb : c.toNat < b.toNat
          · simp [hbc, hcb] at h2
          · simp [show a.toNat < c.toNat by omega]
      · by_cases hba : b.toNat < a.toNat
        · simp [hab, hba] at h1
        · simp [hab, hba] at h1
          by_cases hbc : b.toNat < c.toNat
          · simp [show a.toNat < c.toNat by omega]
          · by_cases hcb : c.toNat < b.toNat
            · simp [hbc, hcb] at h2
            · simp [hbc, hcb] at h2
              simp [show ¬ a.toNat < c.toNat by omega, show ¬ c.toNat < a.toNat by omega]
              exact charListLe_trans as bs cs h1 h2

theorem jsStrLe_total (a b : String) : jsStrLe a b = true ∨ jsStrLe b a = true :=
  charListLe_total a.data b.data

theorem jsStrLe_trans (a b c : String) (h1 : jsStrLe a b = true) (h2 : jsStrLe b c = true) :
    jsStrLe a c = true :=
  charListLe_trans a.data b.data c.data h1 h2

theorem mem_jsSetAdd (acc : List String) (a x : String) :
    x ∈ jsSetAdd acc a ↔ x ∈ acc ∨ x = a := by
  by_cases ha : a ∈ acc
  · simp only [jsSetAdd, if_pos ha]
    constructor
    · exact Or.inl
    · rintro (h | rfl)
      · exact h
      · exact ha
  · simp [jsSetAdd, ha]

theorem mem_foldl_jsSetAdd (l : List String) :
    ∀ (acc : List String) (x : String), x ∈ l.foldl jsSetAdd acc ↔ x ∈ acc ∨ x ∈ l := by
  induction l with
  | nil => intro acc x; simp
  | cons a as ih =>
      intro acc x
      rw [List.foldl_cons, ih, mem_jsSetAdd]
      simp only [List.mem_cons]
      tauto

theorem nodup_foldl_jsSetAdd (l : List String) :
    ∀ acc : List String, acc.Nodup → (l.foldl jsSetAdd acc).Nodup := by
  induction l with
  | nil => intro acc h; simpa using h
  | cons a as ih =>
      intro acc hacc
      rw [List.foldl_cons]
      apply ih
      by_cases ha : a ∈ acc
      · simpa [jsSetAdd, ha] using hacc
      · simp [jsSetAdd, ha, List.nodup_append, hacc]

-- ==================== CLAIM THEOREMS ====================

/-- C1: For every filter map passed to fetchPage, each entry (other than the
rounds/end_date entry dropped by the validation covered by C4) is serialized
as a query parameter named `filter[key]`; its value is exactly "1" (true) or
"0" (false) when the entry's value is a boolean, and the value's default
`toString()` form when it is not. -/
theorem fetchPage_filter_serialization
    (basePath : String) (page : Int) (filters : List (String × JsPrim))
    (sort includes fields : Option String) (limit : Option Int) (search : Option String)
    (k : String) (v : JsPrim) (hmem : (k, v) ∈ filters)
    (hkeep : ¬(basePath = "rounds" ∧ k = "end_date")) :
    (filterKey k, v.toQueryValue)
        ∈ (fetchPageParams basePath page filters sort includes fields limit search).params
      ∧ (∀ b, v = JsPrim.bool b → v.toQueryValue = if b then "1" else "0")
      ∧ (∀ s, v = JsPrim.str s → v.toQueryValue = s)
      ∧ (∀ q, v = JsPrim.num q → v.toQueryValue = JsPrim.defaultToString v) := by
  refine ⟨?_, ?_, ?_, ?_⟩
  · have hf : (filterKey k, v.toQueryValue) ∈ filterParams basePath filters :=
      mem_filterParams.mpr ⟨k, v, hmem, hkeep, rfl⟩
    simp only [fetchPageParams, List.mem_append]
    tauto
  · rintro b rfl; rfl
  · rintro s rfl; rfl
  · rintro q rfl; rfl

/-- C1 witness: a boolean filter entry `{started: true}` for the findings
resource is emitted as `filter[started]=1`. -/
theorem fetchPage_filter_serialization_witness :
    ("filter[started]", "1")
      ∈ (fetchPageParams "findings" 1 [("started", JsPrim.bool true)]
          none none none none none).params :=
  (fetchPage_filter_serialization "findings" 1 [("started", JsPrim.bool true)]
    none none none none none "started" (JsPrim.bool true) (by simp)
    (by simp)).1

/-- C2: makeOnSecurityRequest returns null exactly when the fetch outcome is a
failure (network error, non-2xx status, or JSON parse failure), logging an
error in exactly those cases; it is a total function (the embedding of the
enclosing try/catch), and a 404, an auth failure (401) and a network failure
all produce the same `none` result, so they are indistinguishable to the
caller. -/
theorem makeOnSecurityRequest_null_on_failure (T : Type) (o : FetchResult T) :
    ((makeOnSecurityRequest o).1 = none ↔ requestFails o = true)
      ∧ ((makeOnSecurityRequest o).2 ≠ [] ↔ requestFails o = true)
      ∧ (∀ (msg : String) (body body' : Except String T),
          (makeOnSecurityRequest (FetchResult.networkError (T := T) msg)).1
              = (makeOnSecurityRequest (FetchResult.response 404 body)).1
            ∧ (makeOnSecurityRequest (FetchResult.response 401 body)).1
              = (makeOnSecurityRequest (FetchResult.response 404 body')).1) := by
  refine ⟨?_, ?_, ?_⟩
  · cases o with
    | networkError msg => simp [makeOnSecurityRequest, requestFails]
    | response status body =>
        by_cases hok : statusOk status = true
        · cases body <;> simp [makeOnSecurityRequest, requestFails, hok]
        · cases body <;> simp [makeOnSecurityRequest, requestFails, hok]
  · cases o with
    | networkError msg => simp [makeOnSecurityRequest, requestFails]
    | response status body =>
        by_cases hok : statusOk status = true
        · cases body <;> simp [makeOnSecurityRequest, requestFails, hok]
        · cases body <;> simp [makeOnSecurityRequest, requestFails, hok]
  · intro msg body body'
    constructor
    · cases body <;> simp [makeOnSecurityRequest, statusOk]
    · cases body <;> cases body' <;> simp [makeOnSecurityRequest, statusOk]

theorem sortKey_only_from_sortParams {base : String} {page : Int}
    {fs : List (String × JsPrim)} {sort inc fld : Option String} {lim : Option Int}
    {srch : Option String} {v : String}
    (h : ("sort", v) ∈ (fetchPageParams base page fs sort inc fld lim srch).params) :
    ("sort", v) ∈ sortParams base sort := by
  rcases fetchPage_mem_cases h with h | h | h | h | h | h | h
  · have hk : ("sort" : String) = "page" := congrArg Prod.fst (mem_pageParams h)
    exact absurd hk (by decide)
  · rcases mem_limitParams h with ⟨l, _, _, heq⟩
    have hk : ("sort" : String) = "limit" := congrArg Prod.fst heq
    exact absurd hk (by decide)
  · exact h
  · rcases mem_optStringParam h with ⟨t, _, _, heq⟩
    have hk : ("sort" : String) = "include" := congrArg Prod.fst heq
    exact absurd hk (by decide)
  · rcases mem_optStringParam h with ⟨t, _, _, heq⟩
    have hk : ("sort" : String) = "fields" := congrArg Prod.fst heq
    exact absurd hk (by decide)
  · rcases mem_optStringParam h with ⟨t, _, _, heq⟩
    have hk : ("sort" : String) = "search" := congrArg Prod.fst heq
    exact absurd hk (by decide)
  · rcases mem_filterParams.mp h with ⟨k, w, _, _, heq⟩
    have hk : ("sort" : String) = filterKey k := congrArg Prod.fst heq
    exact absurd hk.symm (filterKey_ne_of_short (by decide))

theorem limitKey_only_from_limitParams {base : String} {page : Int}
    {fs : List (String × JsPrim)} {sort inc fld : Option String} {lim : Option Int}
    {srch : Option String} {v : String}
    (h : ("limit", v) ∈ (fetchPageParams base page fs sort inc fld lim srch).params) :
    ("limit", v) ∈ limitParams lim := by
  rcases fetchPage_mem_cases h with h | h | h | h | h | h | h
  · have hk : ("limit" : String) = "page" := congrArg Prod.fst (mem_pageParams h)
    exact absurd hk (by decide)
  · exact h
  · have hk : ("limit" : String) = "sort" := mem_sortParams h
    exact absurd hk (by decide)
  · rcases mem_optStringParam h with ⟨t, _, _, heq⟩
    have hk : ("limit" : String) = "include" := congrArg Prod.fst heq
    exact absurd hk (by decide)
  · rcases mem_optStringParam h with ⟨t, _, _, heq⟩
    have hk : ("limit" : String) = "fields" := congrArg Prod.fst heq
    exact absurd hk (by decide)
  · rcases mem_optStringParam h with ⟨t, _, _, heq⟩
    have hk : ("limit" : String) = "search" := congrArg Prod.fst heq
    exact absurd hk (by decide)
  · rcases mem_filterParams.mp h with ⟨k, w, _, _, heq⟩
    have hk : ("limit" : String) = filterKey k := congrArg Prod.fst heq
    exact absurd hk.symm (filterKey_ne_of_short (by decide))

theorem filterKeyed_only_from_filterParams {base : String} {page : Int}
    {fs : List (String × JsPrim)} {sort inc fld : Option String} {lim : Option Int}
    {srch : Option String} {k v : String}
    (h : (filterKey k, v) ∈ (fetchPageParams base page fs sort inc fld lim srch).params) :
    (filterKey k, v) ∈ filterParams base fs := by
  have hlen := filterKey_length k
  rcases fetchPage_mem_cases h with h | h | h | h | h | h | h
  · have hk : filterKey k = "page" := congrArg Prod.fst (mem_pageParams h)
    exact absurd hk (filterKey_ne_of_short (by decide))
  · rcases mem_limitParams h with ⟨l, _, _, heq⟩
    have hk : filterKey k = "limit" := congrArg Prod.fst heq
    exact absurd hk (filterKey_ne_of_short (by decide))
  · have hk : filterKey k = "sort" := mem_sortParams h
    exact absurd hk (filterKey_ne_of_short (by decide))
  · rcases mem_optStringParam h with ⟨t, _, _, heq⟩
    have hk : filterKey k = "include" := congrArg Prod.fst heq
    exact absurd hk (filterKey_ne_of_short (by decide))
  · rcases mem_optStringParam h with ⟨t, _, _, heq⟩
    have hk : filterKey k = "fields" := congrArg Prod.fst heq
    exact absurd hk (filterKey_ne_of_short (by decide))
  · rcases mem_optStringParam h with ⟨t, _, _, heq⟩
    have hk : filterKey k = "search" := congrArg Prod.fst heq
    exact absurd hk (filterKey_ne_of_short (by decide))
  · exact h

/-- C3: For the rounds resource, a sort value outside the fixed allow-list of
fourteen tokens (name, start_date, end_date, authorisation_date,
hours_estimate, created_at, updated_at, each suffixed -asc or -desc) causes
the emitted query to contain `sort=id-asc` and not the supplied value, and the
validation warning to be logged; an allow-listed sort value is emitted
verbatim, with nothing logged by the sort-validation branch. -/
theorem fetchPage_rounds_sort_allowlist
    (page : Int) (filters : List (String × JsPrim)) (s : String)
    (includes fields : Option String) (limit : Option Int) (search : Option String)
    (hs : s ≠ "") :
    validRoundsSortFields =
        ["name-asc", "start_date-asc", "end_date-asc", "authorisation_date-asc",
         "hours_estimate-asc", "created_at-asc", "updated_at-asc",
         "name-desc", "start_date-desc", "end_date-desc", "authorisation_date-desc",
         "hours_estimate-desc", "created_at-desc", "updated_at-desc"]
      ∧ (s ∉ validRoundsSortFields →
          ("sort", "id-asc")
              ∈ (fetchPageParams "rounds" page filters (some s) includes fields limit search).params
            ∧ (s ≠ "id-asc" →
                ("sort", s)
                  ∉ (fetchPageParams "rounds" page filters (some s) includes fields limit search).params)
            ∧ roundsSortWarning s
              ∈ (fetchPageParams "rounds" page filters (some s) includes fields limit search).warnings)
      ∧ (s ∈ validRoundsSortFields →
          ("sort", s)
              ∈ (fetchPageParams "rounds" page filters (some s) includes fields limit search).params
            ∧ sortWarnings "rounds" (some s) = []) := by
  refine ⟨rfl, ?_, ?_⟩
  · intro hinv
    have hsp : sortParams "rounds" (some s) = [("sort", "id-asc")] := by
      simp [sortParams, hs, hinv]
    refine ⟨?_, ?_, ?_⟩
    · have hm : ("sort", "id-asc") ∈ sortParams "rounds" (some s) := by
        rw [hsp]; exact List.mem_singleton.mpr rfl
      simp only [fetchPageParams, List.mem_append]
      tauto
    · intro hne hmem
      have h2 := sortKey_only_from_sortParams hmem
      rw [hsp] at h2
      have h3 : s = "id-asc" := congrArg Prod.snd (List.mem_singleton.mp h2)
      exact hne h3
    · have hw : sortWarnings "rounds" (some s) = [roundsSortWarning s] := by
        simp [sortWarnings, hs, hinv]
      simp only [fetchPageParams, List.mem_append]
      exact Or.inl (by rw [hw]; exact List.mem_singleton.mpr rfl)
  · intro hvalid
    have hguard : ¬(("rounds" : String) = "rounds" ∧ s ∉ validRoundsSortFields) := by
      simp [hvalid]
    have hsp : sortParams "rounds" (some s) = [("sort", s)] := by
      simp [sortParams, hs, hvalid]
    constructor
    · have hm : ("sort", s) ∈ sortParams "rounds" (some s) := by
        rw [hsp]; exact List.mem_singleton.mpr rfl
      simp only [fetchPageParams, List.mem_append]
      tauto
    · simp [sortWarnings, hs, hvalid]

/-- C3 witness: `sort="bogus-field"` on the rounds path emits `sort=id-asc`
and not `sort=bogus-field`. -/
theorem fetchPage_rounds_sort_allowlist_witness :
    ("sort", "id-asc")
        ∈ (fetchPageParams "rounds" 1 [] (some "bogus-field") none none none none).params
      ∧ ("sort", "bogus-field")
        ∉ (fetchPageParams "rounds" 1 [] (some "bogus-field") none none none none).params
      ∧ roundsSortWarning "bogus-field"
        ∈ (fetchPageParams "rounds" 1 [] (some "bogus-field") none none none none).warnings := by
  have h := fetchPage_rounds_sort_allowlist 1 [] "bogus-field" none none none none (by decide)
  have h2 := h.2.1 (by decide)
  exact ⟨h2.1, h2.2.1 (by decide), h2.2.2⟩

/-- C4: For the rounds resource, a filter entry keyed `end_date` is dropped
with a logged warning, so no `filter[end_date]` parameter ever appears in the
query; entries with other keys still appear; and `end_date` remains accepted
as a rounds sort key (`end_date-asc`/`end_date-desc` are allow-listed). -/
theorem fetchPage_rounds_drops_end_date_filter
    (page : Int) (filters : List (String × JsPrim)) (sort includes fields : Option String)
    (limit : Option Int) (search : Option String) :
    (∀ v, ("filter[end_date]", v)
        ∉ (fetchPageParams "rounds" page filters sort includes fields limit search).params)
      ∧ (∀ v, ("end_date", v) ∈ filters →
          roundsEndDateFilterWarning
            ∈ (fetchPageParams "rounds" page filters sort includes fields limit search).warnings)
      ∧ (∀ k v, (k, v) ∈ filters → k ≠ "end_date" →
          (filterKey k, JsPrim.toQueryValue v)
            ∈ (fetchPageParams "rounds" page filters sort includes fields limit search).params)
      ∧ "end_date-asc" ∈ validRoundsSortFields ∧ "end_date-desc" ∈ validRoundsSortFields := by
  refine ⟨?_, ?_, ?_, by decide, by decide⟩
  · intro v hmem
    have hmem' : (filterKey "end_date", v)
        ∈ (fetchPageParams "rounds" page filters sort includes fields limit search).params := hmem
    have h2 := filterKeyed_only_from_filterParams hmem'
    rcases mem_filterParams.mp h2 with ⟨k, w, _, hg, heq⟩
    have hk : filterKey "end_date" = filterKey k := congrArg Prod.fst heq
    exact hg ⟨rfl, (filterKey_inj hk).symm⟩
  · intro v hmem
    have hw : roundsEndDateFilterWarning ∈ filterWarnings "rounds" filters :=
      List.mem_filterMap.mpr ⟨("end_date", v), hmem, by simp⟩
    simp only [fetchPageParams, List.mem_append]
    tauto
  · intro k v hmem hk
    have hf : (filterKey k, JsPrim.toQueryValue v) ∈ filterParams "rounds" filters :=
      mem_filterParams.mpr ⟨k, v, hmem, by simp [hk], rfl⟩
    simp only [fetchPageParams, List.mem_append]
    tauto

/-- C4 witness: a rounds query with filters `{end_date: "2024-01-01",
start_date: "2024-01-01"}` emits `filter[start_date]` but no
`filter[end_date]`, and logs the end_date warning. -/
theorem fetchPage_rounds_drops_end_date_filter_witness :
    ("filter[end_date]", "2024-01-01")
        ∉ (fetchPageParams "rounds" 1
            [("end_date", JsPrim.str "2024-01-01"), ("start_date", JsPrim.str "2024-01-01")]
            none none none none none).params
      ∧ roundsEndDateFilterWarning
        ∈ (fetchPageParams "rounds" 1
            [("end_date", JsPrim.str "2024-01-01"), ("start_date", JsPrim.str "2024-01-01")]
            none none none none none).warnings
      ∧ ("filter[start_date]", "2024-01-01")
        ∈ (fetchPageParams "rounds" 1
            [("end_date", JsPrim.str "2024-01-01"), ("start_date", JsPrim.str "2024-01-01")]
            none none none none none).params := by
  have h := fetchPage_rounds_drops_end_date_filter 1
    [("end_date", JsPrim.str "2024-01-01"), ("start_date", JsPrim.str "2024-01-01")]
    none none none none none
  exact ⟨h.1 "2024-01-01", h.2.1 (JsPrim.str "2024-01-01") (by simp),
    h.2.2.1 "start_date" (JsPrim.str "2024-01-01") (by simp) (by decide)⟩

/-- C10: At the tool interface, a numeric parameter whose value is 0 is
treated as if it were absent, because parameters are tested for truthiness:
`page=0` yields an emitted `page=1`, `limit=0` omits the limit parameter,
`round_type=0` (get-rounds) and `round_id=0` (get-findings) add no
corresponding filter entry. -/
theorem zero_numeric_params_treated_as_absent :
    (∀ p : GetRoundsParams, p.page = some 0 →
        ("page", "1") ∈ (getRoundsQuery p).params
          ∧ getRoundsQuery p = getRoundsQuery { p with page := none })
      ∧ (∀ p : GetRoundsParams, p.limit = some 0 →
          (∀ v, ("limit", v) ∉ (getRoundsQuery p).params)
            ∧ getRoundsQuery p = getRoundsQuery { p with limit := none })
      ∧ (∀ p : GetRoundsParams, p.round_type = some 0 →
          getRoundsFilters p = buildToolFilters p.filters
            ∧ getRoundsQuery p = getRoundsQuery { p with round_type := none })
      ∧ (∀ p : GetFindingsParams, p.round_id = some 0 →
          getFindingsFilters p = getFindingsFilters { p with round_id := none }) := by
  refine ⟨?_, ?_, ?_, ?_⟩
  · intro p hp
    have h1 : jsIntOr p.page 1 = 1 := by rw [hp]; rfl
    have h2 : pageParams (jsIntOr p.page 1) = [("page", "1")] := by rw [h1]; decide
    constructor
    · have hm : ("page", "1") ∈ pageParams (jsIntOr p.page 1) := by
        rw [h2]; exact List.mem_singleton.mpr rfl
      simp only [getRoundsQuery, fetchPageParams, List.mem_append]
      tauto
    · simp only [getRoundsQuery, getRoundsFilters]
      rw [hp]
      rfl
  · intro p hp
    constructor
    · intro v hmem
      have h2 := limitKey_only_from_limitParams (by exact hmem)
      rw [hp] at h2
      simp [limitParams] at h2
    · simp only [getRoundsQuery, getRoundsFilters]
      rw [hp]
      simp [fetchPageParams, limitParams]
  · intro p hp
    have hf : getRoundsFilters p = buildToolFilters p.filters := by
      simp [getRoundsFilters, hp]
    have hf2 : getRoundsFilters { p with round_type := none } = buildToolFilters p.filters := by
      simp [getRoundsFilters]
    refine ⟨hf, ?_⟩
    simp only [getRoundsQuery, hf, hf2]
  · intro p hp
    simp [getFindingsFilters, hp]

/-- C10 witness: concrete tool invocations with `page=0`, `limit=0`,
`round_type=0`, `round_id=0`. -/
theorem zero_numeric_params_treated_as_absent_witness :
    ("page", "1")
        ∈ (getRoundsQuery
            { round_type := some 0, sort := none, limit := some 0, page := some 0,
              includes := none, fields := none, filters := [], search := none }).params
      ∧ ("limit", "0")
        ∉ (getRoundsQuery
            { round_type := some 0, sort := none, limit := some 0, page := some 0,
              includes := none, fields := none, filters := [], search := none }).params
      ∧ getRoundsFilters
            { round_type := some 0, sort := none, limit := some 0, page := some 0,
              includes := none, fields := none, filters := [], search := none } = []
      ∧ getFindingsFilters
            { round_id := some 0, round_type := none, sort := none, limit := none,
              page := none, includes := none, fields := none, filters := [], search := none }
          = getFindingsFilters
            { round_id := none, round_type := none, sort := none, limit := none,
              page := none, includes := none, fields := none, filters := [], search := none } := by
  have h := zero_numeric_params_treated_as_absent
  refine ⟨(h.1 _ rfl).1, ((h.2.1 _ rfl).1 "0"), ?_, h.2.2.2 _ rfl⟩
  exact (h.2.2.1 _ rfl).1

/-- A round whose targets include two hidden "Web" placeholders and one
non-hidden "Network" target (the example of the claim). -/
def exampleTargetsRound : RoundFeature :=
  { id := 1, client_id := 1, round_type_id := 1, pod_id := none,
    estimate := { time := 10, period := "days" },
    start_date := none, end_date := none, started := false, finished := false,
    name := "Example", executive_summary_published := false,
    targets := some { result :=
      [{ hidden := true, value := none, notes := none,
         target_type := some { result := some { name := "Web Application", assessment_name := "Web" } } },
       { hidden := true, value := none, notes := none,
         target_type := some { result := some { name := "Web Application", assessment_name := "Web" } } },
       { hidden := false, value := some "10.0.0.1", notes := none,
         target_type := some { result := some { name := "Network", assessment_name := "Network" } } }] } }

/-- A round with no nested targets collection. -/
def noTargetsRound : RoundFeature :=
  { id := 2, client_id := 1, round_type_id := 3, pod_id := none,
    estimate := { time := 0, period := "days" },
    start_date := none, end_date := none, started := false, finished := false,
    name := "Empty", executive_summary_published := false,
    targets := none }

/-- C5: extractAssessmentTypes returns exactly the assessment_name values of
nested targets whose hidden field is true (non-hidden targets and targets
without a truthy assessment_name contribute nothing), de-duplicated and sorted
lexicographically; a round with no nested targets yields the empty list; the
claim's example (two hidden "Web" targets plus one non-hidden "Network"
target) yields ["Web"]. -/
theorem extractAssessmentTypes_spec :
    (∀ round : RoundFeature,
        (extractAssessmentTypes round).Pairwise (fun a b => jsStrLe a b = true)
          ∧ (extractAssessmentTypes round).Nodup
          ∧ (∀ s, s ∈ extractAssessmentTypes round ↔
              ∃ t ∈ roundTargets round, t.hidden = true ∧ targetAssessmentName t = some s)
          ∧ (round.targets = none → extractAssessmentTypes round = []))
      ∧ extractAssessmentTypes exampleTargetsRound = ["Web"] := by
  constructor
  · intro round
    have hdef : extractAssessmentTypes round
        = sortBy jsStrLe
            ((((roundTargets round).filter fun t => t.hidden).filterMap
              targetAssessmentName).foldl jsSetAdd []) := rfl
    refine ⟨?_, ?_, ?_, ?_⟩
    · rw [hdef]
      exact pairwise_sortBy jsStrLe jsStrLe_total jsStrLe_trans _
    · rw [hdef]
      exact (perm_sortBy jsStrLe _).nodup_iff.mpr
        (nodup_foldl_jsSetAdd _ [] (by simp))
    · intro s
      rw [hdef, (perm_sortBy jsStrLe _).mem_iff, mem_foldl_jsSetAdd]
      simp only [List.not_mem_nil, false_or, List.mem_filterMap, List.mem_filter]
      constructor
      · rintro ⟨t, ⟨hmem, hhid⟩, hname⟩
        exact ⟨t, hmem, hhid, hname⟩
      · rintro ⟨t, hmem, hhid, hname⟩
        exact ⟨t, ⟨hmem, hhid⟩, hname⟩
    · intro h
      rw [hdef]
      simp [roundTargets, h, sortBy]
  · rfl

/-- C5 witness: a round without a targets collection yields the empty list. -/
theorem extractAssessmentTypes_spec_witness :
    extractAssessmentTypes noTargetsRound = [] :=
  (extractAssessmentTypes_spec.1 noTargetsRound).2.2.2 rfl

theorem foldl_add_jsNumOr (l : List TimeLogEntry) :
    ∀ init : ℚ, l.foldl (fun sum log => sum + jsNumOr log.hours 0) init
      = init + (l.map fun log => jsNumOr log.hours 0).sum := by
  induction l with
  | nil => intro init; simp
  | cons a as ih =>
      intro init
      rw [List.foldl_cons, ih]
      simp [add_assoc]

/-- The duck-typed round of the claim's example: estimate of 10 with 15 logged
hours (9 + 6). -/
def exampleTimeRound : LooseRound :=
  { estimate := some { time := some 10 },
    time_logs := some { result := [{ hours := some 9 }, { hours := some 6 }] } }

/-- A duck-typed round with no estimate object and no time logs. -/
def emptyTimeRound : LooseRound :=
  { estimate := none, time_logs := none }

/-- C6: extractTimeData returns `estimated` equal to the round's estimate time
(0 when the estimate or its time is absent), `logged` equal to the sum of the
nested time-log hours values with missing hours counted as 0, and
`remaining = max(0, estimated - logged)`, hence never negative; the claim's
example (estimated 10, logged 15) gives remaining 0. -/
theorem extractTimeData_spec :
    (∀ round : LooseRound,
        0 ≤ (extractTimeData round).remaining
          ∧ (extractTimeData round).remaining
              = max 0 ((extractTimeData round).estimated - (extractTimeData round).logged)
          ∧ (round.estimate = none → (extractTimeData round).estimated = 0)
          ∧ (∀ e q, round.estimate = some e → e.time = some q →
              (extractTimeData round).estimated = q)
          ∧ (round.time_logs = none → (extractTimeData round).logged = 0)
          ∧ (∀ tl, round.time_logs = some tl →
              (extractTimeData round).logged
                = (tl.result.map fun log => jsNumOr log.hours 0).sum))
      ∧ (extractTimeData exampleTimeRound).estimated = 10
      ∧ (extractTimeData exampleTimeRound).logged = 15
      ∧ (extractTimeData exampleTimeRound).remaining = 0 := by
  refine ⟨?_, ?_, ?_, ?_⟩
  · intro round
    refine ⟨le_max_left 0 _, rfl, ?_, ?_, ?_, ?_⟩
    · intro h
      simp [extractTimeData, h]
    · intro e q he hq
      simp only [extractTimeData, he, hq, jsNumOr]
      by_cases hz : q = 0
      · simp [hz]
      · simp [hz]
    · intro h
      simp [extractTimeData, h]
    · intro tl htl
      simp only [extractTimeData, htl]
      rw [foldl_add_jsNumOr]
      simp
  · norm_num [extractTimeData, exampleTimeRound, jsNumOr]
  · norm_num [extractTimeData, exampleTimeRound, jsNumOr]
  · norm_num [extractTimeData, exampleTimeRound, jsNumOr]

/-- C6 witness: a round with neither estimate nor logs has all three fields 0. -/
theorem extractTimeData_spec_witness :
    (extractTimeData emptyTimeRound).estimated = 0
      ∧ (extractTimeData emptyTimeRound).logged = 0 := by
  have h := extractTimeData_spec.1 emptyTimeRound
  exact ⟨h.2.2.1 rfl, h.2.2.2.2.1 rfl⟩

theorem mem_of_getElemOpt {α : Type} {l : List α} {i : Nat} {a : α}
    (h : l[i]? = some a) : a ∈ l := by
  rcases List.getElem?_eq_some.mp h with ⟨hlt, hget⟩
  exact hget ▸ List.getElem_mem hlt

/-- A FindingFeature with every optional field absent. -/
def undefFinding : FindingFeature :=
  { id := none, client_id := none, round_id := none, name := none, display_id := none,
    remediation_complexity := none, executive_description := none, executive_risk := none,
    executive_recommendation := none, description := none, evidence := none,
    recommendation := none, cvss := none, status := none, published := none }

/-- C7 counterexample: formatFinding renders a missing `display_id` (and
`published`) as the raw interpolation text "undefined", not as an "N/A" or
"Unknown" placeholder, so not every missing optional field is rendered as such
a placeholder. -/
theorem formatters_placeholder_counterexample :
    "Display ID: undefined" ∈ formatFindingLines undefFinding
      ∧ "Display ID: N/A" ∉ formatFindingLines undefFinding
      ∧ "Display ID: Unknown" ∉ formatFindingLines undefFinding
      ∧ "Published: undefined" ∈ formatFindingLines undefFinding := by
  decide

/-- C7 (amended): every formatter is total by construction and emits a fixed
set of field lines, never omitting a line; missing optional fields that have
an explicit fallback render as a literal placeholder ("N/A", "Unknown",
"Not assigned", "No description"), while optional fields interpolated directly
into the template (finding id / client_id / round_id / name / display_id /
published; the notification fields) render as the literal text "undefined"
when missing. -/
theorem formatters_total_with_placeholders :
    (∀ f : FindingFeature, (formatFindingLines f).length = 17
        ∧ formatFinding f = String.intercalate "\n" (formatFindingLines f))
      ∧ (∀ f : FindingFeature, f.cvss = none →
          (formatFindingLines f)[5]? = some "CVSS Score: N/A"
            ∧ (formatFindingLines f)[6]? = some "Severity: N/A")
      ∧ (∀ f : FindingFeature, f.status = none →
          (formatFindingLines f)[7]? = some "Status: Unknown (No description)")
      ∧ (∀ f : FindingFeature, f.description = none →
          (formatFindingLines f)[13]? = some "Description: N/A")
      ∧ (∀ f : FindingFeature, f.display_id = none →
          (formatFindingLines f)[1]? = some "Display ID: undefined")
      ∧ (∀ r : RoundFeature, (formatRoundLines r).getLast? = some separatorLine
          ∧ (r.pod_id = none → "Pod ID: Not assigned" ∈ formatRoundLines r)
          ∧ (r.start_date = none → "Start Date: Unknown" ∈ formatRoundLines r)
          ∧ (r.end_date = none → "End Date: Unknown" ∈ formatRoundLines r))
      ∧ (∀ n : NotificationFeature, (formatNotificationLines n).length = 4
          ∧ (n.heading = none → (formatNotificationLines n)[0]? = some "Content: undefined"))
      ∧ (∀ p : PrerequisiteFeature, (formatPrerequisiteLines p).length = 9
          ∧ (p.name = none → (formatPrerequisiteLines p)[2]? = some "Name: N/A")
          ∧ (p.required = none → (formatPrerequisiteLines p)[4]? = some "Required: N/A")
          ∧ (p.status = none → (formatPrerequisiteLines p)[5]? = some "Status: N/A"))
      ∧ (∀ b : BlockFeature, (formatBlockLines b).length = 17
          ∧ (b.remediation_complexity = none →
              (formatBlockLines b)[6]? = some "Remediation Complexity: N/A")
          ∧ (b.ratings = none → b.cvss = none →
              (formatBlockLines b)[7]? = some "CVSS Score: N/A")
          ∧ (b.description = none → (formatBlockLines b)[11]? = some "Description: N/A")) := by
  refine ⟨fun f => ⟨rfl, rfl⟩, ?_, ?_, ?_, ?_, ?_, ?_, ?_, ?_⟩
  · intro f h
    constructor
    · simp only [formatFindingLines]
      rw [h]
      rfl
    · simp only [formatFindingLines]
      rw [h]
      rfl
  · intro f h
    simp only [formatFindingLines]
    rw [h]
    rfl
  · intro f h
    simp only [formatFindingLines]
    rw [h]
    rfl
  · intro f h
    simp only [formatFindingLines]
    rw [h]
    rfl
  · intro r
    refine ⟨List.getLast?_concat _, ?_, ?_, ?_⟩
    · intro h
      have hb : (baseRoundLines r)[3]? = some "Pod ID: Not assigned" := by
        simp only [baseRoundLines]
        rw [h]
        rfl
      simp only [formatRoundLines, List.mem_append]
      exact Or.inl (Or.inl (Or.inl (mem_of_getElemOpt hb)))
    · intro h
      have hb : (baseRoundLines r)[5]? = some "Start Date: Unknown" := by
        simp only [baseRoundLines]
        rw [h]
        rfl
      simp only [formatRoundLines, List.mem_append]
      exact Or.inl (Or.inl (Or.inl (mem_of_getElemOpt hb)))
    · intro h
      have hb : (baseRoundLines r)[6]? = some "End Date: Unknown" := by
        simp only [baseRoundLines]
        rw [h]
        rfl
      simp only [formatRoundLines, List.mem_append]
      exact Or.inl (Or.inl (Or.inl (mem_of_getElemOpt hb)))
  · intro n
    refine ⟨rfl, ?_⟩
    intro h
    simp only [formatNotificationLines]
    rw [h]
    rfl
  · intro p
    refine ⟨rfl, ?_, ?_, ?_⟩ <;> intro h <;>
      first
        | (simp only [formatPrerequisiteLines]; rw [h]; rfl)
  · intro b
    refine ⟨rfl, ?_, ?_, ?_⟩
    · intro h
      simp only [formatBlockLines]
      rw [h]
      rfl
    · intro h1 h2
      simp only [formatBlockLines]
      rw [h1, h2]
      rfl
    · intro h
      simp only [formatBlockLines]
      rw [h]
      rfl

/-- C7 witness for the amended theorem, applied at the all-absent finding and
a round without pod/start date. -/
theorem formatters_total_with_placeholders_witness :
    (formatFindingLines undefFinding)[5]? = some "CVSS Score: N/A"
      ∧ (formatFindingLines undefFinding)[1]? = some "Display ID: undefined"
      ∧ "Pod ID: Not assigned" ∈ formatRoundLines noTargetsRound
      ∧ "Start Date: Unknown" ∈ formatRoundLines noTargetsRound := by
  have h := formatters_total_with_placeholders
  exact ⟨(h.2.1 undefFinding rfl).1, h.2.2.2.2.1 undefFinding rfl,
    (h.2.2.2.2.2.1 noTargetsRound).2.1 rfl, (h.2.2.2.2.2.1 noTargetsRound).2.2.1 rfl⟩

theorem length_jsSubstring0 (s : String) (n : Nat) :
    (jsSubstring0 s n).length = min n s.length := by
  show (s.data.take n).length = min n s.data.length
  exact List.length_take n s.data

/-- C8: In formatBlock, each present nonempty free-text field
(executive_description, executive_risk, executive_recommendation,
description, evidence, recommendation) is rendered as its first
`substring(0, 200)` characters (hence at most 200) followed by "...";
a 500-character value yields exactly 200 characters plus the ellipsis. -/
theorem formatBlock_truncation (b : BlockFeature) (d : String) (hne : d ≠ "") :
    (b.executive_description = some d →
        (formatBlockLines b)[8]? = some ("Executive Description: " ++ jsSubstring0 d 200 ++ "..."))
      ∧ (b.executive_risk = some d →
          (formatBlockLines b)[9]? = some ("Executive Risk: " ++ jsSubstring0 d 200 ++ "..."))
      ∧ (b.executive_recommendation = some d →
          (formatBlockLines b)[10]? = some ("Executive Recommendation: " ++ jsSubstring0 d 200 ++ "..."))
      ∧ (b.description = some d →
          (formatBlockLines b)[11]? = some ("Description: " ++ jsSubstring0 d 200 ++ "..."))
      ∧ (b.evidence = some d →
          (formatBlockLines b)[12]? = some ("Evidence: " ++ jsSubstring0 d 200 ++ "..."))
      ∧ (b.recommendation = some d →
          (formatBlockLines b)[13]? = some ("Recommendation: " ++ jsSubstring0 d 200 ++ "..."))
      ∧ (jsSubstring0 d 200).length ≤ 200
      ∧ (d.length = 500 → (jsSubstring0 d 200).length = 200) := by
  refine ⟨?_, ?_, ?_, ?_, ?_, ?_, ?_, ?_⟩
  · intro h; simp [formatBlockLines, h, truncatedField, hne, String.append_assoc]
  · intro h; simp [formatBlockLines, h, truncatedField, hne, String.append_assoc]
  · intro h; simp [formatBlockLines, h, truncatedField, hne, String.append_assoc]
  · intro h; simp [formatBlockLines, h, truncatedField, hne, String.append_assoc]
  · intro h; simp [formatBlockLines, h, truncatedField, hne, String.append_assoc]
  · intro h; simp [formatBlockLines, h, truncatedField, hne, String.append_assoc]
  · rw [length_jsSubstring0]
    exact min_le_left 200 d.length
  · intro h500
    rw [length_jsSubstring0, h500]
    norm_num

/-- A Block whose description is 500 copies of the character a. -/
def longDescriptionBlock : BlockFeature :=
  { id := 1, round_type_id := 1, name := "Long", executive_description := none,
    executive_risk := none, executive_recommendation := none,
    description := some (String.mk (List.replicate 500 'a')), evidence := none,
    recommendation := none, remediation_complexity := none, approved := true,
    automation_approved := false, used_count := 0, ratings := none, cvss := none,
    created_at := "2024-01-01", updated_at := "2024-01-01" }

set_option maxRecDepth 8192 in
/-- C8 witness: the 500-character description renders as exactly its first
200 characters followed by "...". -/
theorem formatBlock_truncation_witness :
    (formatBlockLines longDescriptionBlock)[11]?
        = some ("Description: " ++ String.mk (List.replicate 200 'a') ++ "...")
      ∧ (String.mk (List.replicate 500 'a')).length = 500 := by
  have h := formatBlock_truncation longDescriptionBlock
    (String.mk (List.replicate 500 'a')) (by decide)
  have h11 := h.2.2.2.1 rfl
  refine ⟨h11.trans (by decide), by decide⟩

/-- A Block whose description is 50 copies of the character b. -/
def shortDescriptionBlock : BlockFeature :=
  { id := 2, round_type_id := 1, name := "Short", executive_description := none,
    executive_risk := none, executive_recommendation := none,
    description := some (String.mk (List.replicate 50 'b')), evidence := none,
    recommendation := none, remediation_complexity := none, approved := true,
    automation_approved := false, used_count := 0, ratings := none, cvss := none,
    created_at := "2024-01-01", updated_at := "2024-01-01" }

/-- C9: the "..." suffix is appended to every present nonempty description
regardless of length: when the description has at most 200 characters it is
rendered in full and still followed by "...", so a trailing ellipsis does not
indicate that truncation occurred. -/
theorem formatBlock_ellipsis_regardless (b : BlockFeature) (d : String)
    (h : b.description = some d) (hne : d ≠ "") (hlen : d.length ≤ 200) :
    (formatBlockLines b)[11]? = some ("Description: " ++ d ++ "...") := by
  have htake : jsSubstring0 d 200 = d := by
    show String.mk (d.data.take 200) = d
    rw [List.take_of_length_le hlen]
  simp [formatBlockLines, h, truncatedField, hne, htake, String.append_assoc]

/-- C9 witness: a 50-character description renders as those 50 characters
followed by "...". -/
theorem formatBlock_ellipsis_regardless_witness :
    (formatBlockLines shortDescriptionBlock)[11]?
      = some ("Description: " ++ String.mk (List.replicate 50 'b') ++ "...") :=
  formatBlock_ellipsis_regardless shortDescriptionBlock
    (String.mk (List.replicate 50 'b')) rfl (by decide) (by decide)

/-- C2 witness: a 404 response with a well-formed body still yields `null`. -/
theorem makeOnSecurityRequest_null_on_failure_witness :
    (makeOnSecurityRequest (FetchResult.response (T := Nat) 404 (Except.ok 5))).1 = none := by
  have h := makeOnSecurityRequest_null_on_failure Nat (FetchResult.response 404 (Except.ok 5))
  exact h.1.mpr (by decide)
